import Mathlib

/-!
Verification of the wepadel-coach-backend server (src/server.js).

The repository contains two revisions of the same Express server, both in
src/server.js (an earlier revision and a later one).  The later revision is
embedded in full below; the earlier revision differs only in its inline reply
extraction expression (embedded as legacyExtract), its fallback literal
(legacyFallbackReply) and in details of the outgoing request that no claim
inspects (token budget, response-format hint, debug branch).

JavaScript dynamic values are embedded as the inductive type JsVal.  Property
access, optional chaining, nullish coalescing, truthiness and String()
conversion are embedded as total functions; every property access in the
handler code is either guarded by optional chaining in the source or
applied to a value that cannot be nullish, so a total model of access
(nullish or non-object receivers yield undefined, exactly as the guarded
source behaves) is faithful.  Operations that throw TypeError in JavaScript
(calling .map or .slice on a non-array) are embedded in the Except monad.
Numbers are modelled as integers: no claim involves fractional values or NaN.
String.trim here trims the ASCII whitespace that occurs in the template and
claims; no claim depends on exotic Unicode whitespace.
-/

namespace WePadel

/-- A JavaScript (JSON-extended) value: the dynamic values flowing through
the request body and the parsed upstream envelope. -/
inductive JsVal where
  | undefined : JsVal
  | null : JsVal
  | boolean : Bool → JsVal
  | num : Int → JsVal
  | str : String → JsVal
  | arr : List JsVal → JsVal
  | obj : List (String × JsVal) → JsVal
  deriving Repr

/-- Property access v.k, total model: objects look the key up (undefined if
missing), every non-object receiver (including null/undefined, which the
source always guards with optional chaining) yields undefined. -/
def getProp (v : JsVal) (k : String) : JsVal :=
  match v with
  | .obj fields =>
      match fields.find? (fun p => p.1 = k) with
      | some p => p.2
      | none => .undefined
  | _ => .undefined

/-- Index access v?.[0]. -/
def index0 (v : JsVal) : JsVal :=
  match v with
  | .arr (x :: _) => x
  | .obj fields => getProp (.obj fields) "0"
  | _ => .undefined

/-- Whether a value is nullish (null or undefined). -/
def nullish (v : JsVal) : Bool :=
  match v with
  | .null => true
  | .undefined => true
  | _ => false

/-- The nullish-coalescing operator a ?? b. -/
def coalesce (a b : JsVal) : JsVal :=
  if nullish a then b else a

/-- JavaScript truthiness (NaN is not representable in the integer model). -/
def truthy (v : JsVal) : Bool :=
  match v with
  | .undefined => false
  | .null => false
  | .boolean b => b
  | .num n => n ≠ 0
  | .str s => s ≠ ""
  | .arr _ => true
  | .obj _ => true

mutual

/-- JavaScript String(v) conversion. -/
def jsToString (v : JsVal) : String :=
  match v with
  | .undefined => "undefined"
  | .null => "null"
  | .boolean b => if b then "true" else "false"
  | .num n => toString n
  | .str s => s
  | .arr xs => jsArrString xs
  | .obj _ => "[object Object]"

/-- Array toString: elements joined with commas, a nullish element
contributing the empty string. -/
def jsArrString (xs : List JsVal) : String :=
  match xs with
  | [] => ""
  | [x] => if nullish x then "" else jsToString x
  | x :: y :: rest =>
      (if nullish x then "" else jsToString x) ++ "," ++ jsArrString (y :: rest)

end

/-- How Array.prototype.join converts one element: nullish becomes the
empty string, anything else its String() conversion. -/
def jsElemString (v : JsVal) : String :=
  if nullish v then "" else jsToString v

/-- Array.prototype.join with separator "" applied to a list of values. -/
def jsJoinEmpty (xs : List JsVal) : String :=
  xs.foldl (fun acc v => acc ++ jsElemString v) ""

/-- String.prototype.trim: leading and trailing whitespace removed.  Defined
structurally on the character list (the whitespace characters occurring in
this program are the ASCII ones Char.isWhitespace covers). -/
def jsTrim (s : String) : String :=
  ⟨((s.data.dropWhile Char.isWhitespace).reverse.dropWhile Char.isWhitespace).reverse⟩

/-- typeof v produces the string "string". -/
def isString (v : JsVal) : Bool :=
  match v with
  | .str _ => true
  | _ => false

/-- typeof v produces the string "object" (true for objects, arrays and
null). -/
def typeofObject (v : JsVal) : Bool :=
  match v with
  | .obj _ => true
  | .arr _ => true
  | .null => true
  | _ => false

/-- The template literal of buildSystemBlock before the final trim: a blank
first line, the persona, a blank line, the profile, a blank line, the
"Recent matches:" header and its section, a blank line, the "Constraints:"
header and its section, and a trailing newline. -/
def sysTemplate (coachPersona playerProfile recentMatchesSummary constraints : String) : String :=
  "\n" ++ coachPersona ++ "\n\n" ++ playerProfile ++ "\n\nRecent matches:\n"
    ++ recentMatchesSummary ++ "\n\nConstraints:\n" ++ constraints ++ "\n"

/-- One ContextPack field as interpolated into the template: the field value
with nullish coalesced to "" and then converted by the string interpolation
of the template literal. -/
def packField (contextPack : JsVal) (k : String) : String :=
  jsToString (coalesce (getProp contextPack k) (.str ""))

/-- buildSystemBlock(contextPack) from src/server.js: the four fields,
defaulted to "" when nullish, interpolated into the fixed template and
trimmed. -/
def buildSystemBlock (contextPack : JsVal) : String :=
  jsTrim (sysTemplate (packField contextPack "coachPersona")
    (packField contextPack "playerProfile")
    (packField contextPack "recentMatchesSummary")
    (packField contextPack "constraints"))

/-- One part object of the Gemini request, laid out as in the source. -/
structure GemPart where
  text : String
  deriving Repr, DecidableEq

/-- One normalized turn of the Gemini request: a role and a singleton parts
list, laid out as in the source. -/
structure GemTurn where
  role : String
  parts : List GemPart
  deriving Repr, DecidableEq

/-- The strict comparison t?.role === "user". -/
def isUserRole (v : JsVal) : Bool :=
  match v with
  | .str s => s = "user"
  | _ => false

/-- Array.prototype.slice(-10): the last ten elements (all, when there are
ten or fewer). -/
def sliceNeg10 (xs : List JsVal) : List JsVal :=
  xs.drop (xs.length - 10)

/-- The arrow function applied to each turn by normalizeThread: role is
"user" exactly for the literal role "user" and "model" otherwise, and the
text field is stringified with nullish defaulted to "". -/
def normTurn (t : JsVal) : GemTurn :=
  { role := if isUserRole (getProp t "role") then "user" else "model"
  , parts := [⟨jsToString (coalesce (getProp t "text") (.str ""))⟩] }

/-- normalizeThread(thread) from src/server.js: (thread?.turns ?? [])
.slice(-10).map(...).  When thread?.turns ?? [] is not an array, .slice
(or, for a string receiver, the subsequent .map) is not a function and the
call throws a TypeError, embedded as an error result. -/
def normalizeThread (thread : JsVal) : Except String (List GemTurn) :=
  match coalesce (getProp thread "turns") (.arr []) with
  | .arr ts => .ok ((sliceNeg10 ts).map normTurn)
  | _ => .error "TypeError: not an array"

/-- The fallback reply literal of the later revision (line 198). -/
def fallbackReply : String := "I’m here. Tell me what you want to improve today."

/-- The fallback reply literal of the earlier revision (line 118); its bytes
differ from those of the later revision (the apostrophe is mojibake there). -/
def legacyFallbackReply : String := "Iâ€™m here. Tell me what you want to improve today."

/-- The optional chain json?.candidates?.[0]?.content?.parts. -/
def partsChain (json : JsVal) : JsVal :=
  getProp (getProp (index0 (getProp json "candidates")) "content") "parts"

/-- extractReply(json) of the later revision: descend to the first
parts of the first candidate (?? []), map each part to p?.text ?? "",
join with "",
then return the trim unless the string is falsy or trims to empty, in which
case return the fallback literal.  When parts ?? [] is not an array, .map is
not a function and the call throws. -/
def extractReply (json : JsVal) : Except String String :=
  match coalesce (partsChain json) (.arr []) with
  | .arr ps =>
      let text := jsJoinEmpty (ps.map (fun p => coalesce (getProp p "text") (.str "")))
      .ok (if text ≠ "" ∧ 0 < (jsTrim text).length then jsTrim text else fallbackReply)
  | _ => .error "TypeError: not an array"

/-- The inline extraction of the earlier revision (lines 114-118):
json?.candidates?.[0]?.content?.parts?.map(p => p?.text ?? "").join("") ||
fallback.  A nullish parts short-circuits the whole optional chain to
undefined, which || replaces by the fallback; a non-array, non-nullish parts
throws at .map; otherwise the joined text is returned unless falsy (empty). -/
def legacyExtract (json : JsVal) : Except String String :=
  match partsChain json with
  | .null => .ok legacyFallbackReply
  | .undefined => .ok legacyFallbackReply
  | .arr ps =>
      let text := jsJoinEmpty (ps.map (fun p => coalesce (getProp p "text") (.str "")))
      .ok (if text ≠ "" then text else legacyFallbackReply)
  | _ => .error "TypeError: not an array"

/-- The text contributed by one part, as the specification describes it: the
text field of the part, a missing (nullish) one contributing the empty
string. -/
def partText (p : JsVal) : String :=
  match getProp p "text" with
  | .null => ""
  | .undefined => ""
  | v => jsToString v

/-- The concatenation, in array order with no separator, of the text of each
part. -/
def concatPartTexts (ps : List JsVal) : String :=
  String.join (ps.map partText)

/-- One upstream HTTP response as the handler observes it: r.ok, r.status,
the raw body text, and the result of JSON.parse on that text (none when
parsing throws); the parse result is carried as data because the JSON
grammar itself is not what any claim is about. -/
structure UpstreamResp where
  ok : Bool
  status : Nat
  bodyText : String
  parsed : Option JsVal

/-- The observable outcome of one POST /coach/chat request. -/
inductive ChatOutcome where
  | missingApiKey : ChatOutcome
  | invalidUserMessage : ChatOutcome
  | invalidContextPack : ChatOutcome
  | badGateway : Nat → String → ChatOutcome
  | reply : String → ChatOutcome
  | unexpectedError : ChatOutcome
  deriving Repr, DecidableEq

/-- The HTTP status and error text each outcome is sent with (a reply has no
error text; the JSON body of a bad gateway additionally carries the upstream
status and the raw upstream body verbatim, which the constructor holds). -/
def responseOf (o : ChatOutcome) : Nat × String :=
  match o with
  | .missingApiKey => (500, "Missing GEMINI_API_KEY")
  | .invalidUserMessage => (400, "Missing or invalid userMessage")
  | .invalidContextPack => (400, "Missing or invalid contextPack")
  | .badGateway _ _ => (502, "Gemini call failed")
  | .reply _ => (200, "")
  | .unexpectedError => (500, "Unexpected error")

/-- Truthiness of an environment variable (a string, or none when unset):
!apiKey fails for an unset or empty variable. -/
def envTruthy (v : Option String) : Bool :=
  match v with
  | some s => s ≠ ""
  | none => false

/-- One field of req.body ?? {}. -/
def bodyProp (reqBody : JsVal) (k : String) : JsVal :=
  getProp (coalesce reqBody (.obj [])) k

/-- The first validation: !userMessage || typeof userMessage !== "string"
fails; this holds exactly when userMessage is truthy and a string. -/
def validUserMessage (reqBody : JsVal) : Bool :=
  truthy (bodyProp reqBody "userMessage") && isString (bodyProp reqBody "userMessage")

/-- The second validation: !contextPack || typeof contextPack !== "object"
fails; this holds exactly when contextPack is truthy and of typeof
"object". -/
def validContextPack (reqBody : JsVal) : Bool :=
  truthy (bodyProp reqBody "contextPack") && typeofObject (bodyProp reqBody "contextPack")

/-- The fetch and everything after it: one upstream call is made; a non-ok
response propagates as the 502 bad-gateway outcome carrying the upstream
status and raw body; otherwise the body is parsed (a parse failure or a
TypeError in extractReply reaching the top-level catch) and the extracted
reply returned.  An exhausted response list models fetch itself rejecting,
which the top-level catch also turns into the unexpected error. -/
def upstreamStep : List UpstreamResp → ChatOutcome × Nat
  | [] => (.unexpectedError, 1)
  | r :: _ =>
      if r.ok = false then (.badGateway r.status r.bodyText, 1)
      else
        match r.parsed with
        | none => (.unexpectedError, 1)
        | some json =>
            match extractReply json with
            | .error _ => (.unexpectedError, 1)
            | .ok t => (.reply t, 1)

/-- The POST /coach/chat handler (later revision, non-debug query), as a
function of the GEMINI_API_KEY environment variable, the parsed request
body, and the sequence of upstream responses fetch would produce in order.
The second component counts the upstream calls performed.  An exhausted
response list models fetch itself rejecting (network failure), which the
top-level catch turns into the unexpected-error response, as it does a
TypeError from normalizeThread or extractReply and a JSON.parse failure.
The outgoing payload (system block, normalized turns, generation config) is
built between validation and the call; buildSystemBlock and normalizeThread
are the embedded pieces of it, and only normalizeThread can throw. -/
def coachChat (apiKey : Option String) (reqBody : JsVal) (upstream : List UpstreamResp) :
    ChatOutcome × Nat :=
  if envTruthy apiKey = false then (.missingApiKey, 0)
  else if validUserMessage reqBody = false then (.invalidUserMessage, 0)
  else if validContextPack reqBody = false then (.invalidContextPack, 0)
  else
    match normalizeThread (bodyProp reqBody "thread") with
    | .error _ => (.unexpectedError, 0)
    | .ok _ => upstreamStep upstream

/-! ### Helper lemmas -/

lemma length_pos_of_ne_empty (s : String) (h : s ≠ "") : 0 < s.length := by
  cases s with
  | mk data =>
    cases data with
    | nil => exact absurd rfl h
    | cons c cs => simp [String.length]

lemma trim_empty_eq : jsTrim "" = "" := rfl

lemma jsJoinEmpty_eq_join (xs : List JsVal) :
    jsJoinEmpty xs = String.join (xs.map jsElemString) := by
  show xs.foldl (fun acc v => acc ++ jsElemString v) "" = (xs.map jsElemString).foldl (· ++ ·) ""
  rw [List.foldl_map]

lemma elem_text_eq (p : JsVal) :
    jsElemString (coalesce (getProp p "text") (.str "")) = partText p := by
  unfold coalesce partText
  cases h : getProp p "text" <;> simp [nullish, jsElemString, jsToString]

lemma join_map_eq_concat (ps : List JsVal) :
    jsJoinEmpty (ps.map (fun p => coalesce (getProp p "text") (.str ""))) =
      concatPartTexts ps := by
  rw [jsJoinEmpty_eq_join, List.map_map]
  unfold concatPartTexts
  exact congrArg String.join (List.map_congr_left (fun p _ => elem_text_eq p))

lemma packField_empty (cp : JsVal) (k : String)
    (h : nullish (getProp cp k) = true ∨ getProp cp k = .str "") :
    packField cp k = "" := by
  unfold packField coalesce
  rcases h with h | h
  · rw [h]
    simp [jsToString]
  · rw [h]
    simp [nullish, jsToString]

lemma normTurn_role_iff (t : JsVal) :
    ((normTurn t).role = "user" ↔ getProp t "role" = JsVal.str "user") ∧
      ((normTurn t).role = "user" ∨ (normTurn t).role = "model") := by
  unfold normTurn isUserRole
  cases h : getProp t "role" with
  | str s =>
    by_cases hs : s = "user"
    · subst hs
      simp
    · simp [hs]
  | _ => simp

lemma normTurn_parts_eq (t : JsVal) :
    (normTurn t).parts =
      [⟨if nullish (getProp t "text") then "" else jsToString (getProp t "text")⟩] := by
  unfold normTurn coalesce
  by_cases h : nullish (getProp t "text") = true
  · simp [h, jsToString]
  · simp [h]

lemma upstreamStep_snd (ups : List UpstreamResp) : (upstreamStep ups).2 = 1 := by
  cases ups with
  | nil => rfl
  | cons r rest =>
    simp only [upstreamStep]
    by_cases hr : r.ok = false
    · rw [if_pos hr]
    · rw [if_neg hr]
      cases r.parsed with
      | none => rfl
      | some json =>
        show (match extractReply json with
          | Except.error _ => (ChatOutcome.unexpectedError, 1)
          | Except.ok t => (ChatOutcome.reply t, 1)).2 = 1
        cases extractReply json <;> rfl

lemma upstreamStep_fail (r : UpstreamResp) (rest : List UpstreamResp) (hr : r.ok = false) :
    upstreamStep (r :: rest) = (.badGateway r.status r.bodyText, 1) := by
  simp only [upstreamStep]
  rw [if_pos hr]

/-! ### Claim theorems -/

/-- C2: when the turn list of the thread (thread?.turns, defaulted to [] when the
thread or its turns field is absent) is the list ts, normalization maps
exactly ts.drop (ts.length - 10) — a suffix of ts, hence the last turns in
their original relative order — of length min ts.length 10: for more than
ten turns exactly the last ten, for ten or fewer all of them, and for an
absent thread (ts = []) the empty list. -/
theorem normalizeThread_lastTen (thread : JsVal) (ts : List JsVal)
    (h : coalesce (getProp thread "turns") (JsVal.arr []) = JsVal.arr ts) :
    normalizeThread thread = .ok ((ts.drop (ts.length - 10)).map normTurn) ∧
      ts.drop (ts.length - 10) <:+ ts ∧
      (ts.drop (ts.length - 10)).length = min ts.length 10 ∧
      (ts.length ≤ 10 → ts.drop (ts.length - 10) = ts) ∧
      normalizeThread JsVal.undefined = .ok [] := by
  refine ⟨?_, List.drop_suffix _ _, ?_, ?_, rfl⟩
  · unfold normalizeThread
    rw [h]
    rfl
  · rw [List.length_drop]
    omega
  · intro hle
    have h0 : ts.length - 10 = 0 := by omega
    rw [h0, List.drop_zero]

/-- Eleven concrete turn values, for exercising the last-ten rule. -/
def elevenNums : List JsVal :=
  [JsVal.num 0, JsVal.num 1, JsVal.num 2, JsVal.num 3, JsVal.num 4, JsVal.num 5,
   JsVal.num 6, JsVal.num 7, JsVal.num 8, JsVal.num 9, JsVal.num 10]

/-- A thread object holding the eleven turns. -/
def elevenThread : JsVal := JsVal.obj [("turns", JsVal.arr elevenNums)]

/-- C2 witness: a thread of eleven turns normalizes to the map over the last
ten of them, a suffix of length min 11 10 = 10. -/
theorem normalizeThread_lastTen_witness :
    normalizeThread elevenThread = .ok ((elevenNums.drop (elevenNums.length - 10)).map normTurn) ∧
      (elevenNums.drop (elevenNums.length - 10)).length = min elevenNums.length 10 :=
  ⟨(normalizeThread_lastTen elevenThread elevenNums rfl).1,
    (normalizeThread_lastTen elevenThread elevenNums rfl).2.2.1⟩

/-- C3: every turn of a normalized thread has role "user" exactly when the
role field of the corresponding source turn is the literal string "user", and
role "model" in every other case (absent, null, "assistant", "system", any
non-string). -/
theorem normalizeThread_role (thread : JsVal) (ts : List JsVal)
    (h : coalesce (getProp thread "turns") (JsVal.arr []) = JsVal.arr ts)
    (out : List GemTurn) (hout : normalizeThread thread = .ok out)
    (i : Nat) (hi : i < out.length) :
    ∃ ht : i < (ts.drop (ts.length - 10)).length,
      ((out.get ⟨i, hi⟩).role = "user" ↔
          getProp ((ts.drop (ts.length - 10)).get ⟨i, ht⟩) "role" = JsVal.str "user") ∧
        ((out.get ⟨i, hi⟩).role = "user" ∨ (out.get ⟨i, hi⟩).role = "model") := by
  have hdef : normalizeThread thread = .ok ((ts.drop (ts.length - 10)).map normTurn) := by
    unfold normalizeThread
    rw [h]
    rfl
  rw [hdef] at hout
  have hout2 : out = (ts.drop (ts.length - 10)).map normTurn := (Except.ok.inj hout).symm
  subst hout2
  have ht : i < (ts.drop (ts.length - 10)).length := by
    simpa using hi
  refine ⟨ht, ?_⟩
  rw [List.get_map]
  exact normTurn_role_iff _

/-- Three concrete turns: roles "user", "assistant", absent. -/
def threeRoleTurns : List JsVal :=
  [JsVal.obj [("role", JsVal.str "user")],
   JsVal.obj [("role", JsVal.str "assistant")],
   JsVal.obj []]

/-- A thread object holding the three turns. -/
def threeRoleThread : JsVal := JsVal.obj [("turns", JsVal.arr threeRoleTurns)]

/-- C3 witness: the second turn (role "assistant") of a concrete thread.  Its
normalized role is "user" only if its source role were the literal "user",
and it is "user" or "model". -/
theorem normalizeThread_role_witness :
    ∃ ht : 1 < (threeRoleTurns.drop (threeRoleTurns.length - 10)).length,
      ((((threeRoleTurns.drop (threeRoleTurns.length - 10)).map normTurn).get
            ⟨1, by rw [List.length_map]; exact ht⟩).role = "user" ↔
          getProp ((threeRoleTurns.drop (threeRoleTurns.length - 10)).get ⟨1, ht⟩) "role" =
            JsVal.str "user") ∧
        ((((threeRoleTurns.drop (threeRoleTurns.length - 10)).map normTurn).get
            ⟨1, by rw [List.length_map]; exact ht⟩).role = "user" ∨
          (((threeRoleTurns.drop (threeRoleTurns.length - 10)).map normTurn).get
            ⟨1, by rw [List.length_map]; exact ht⟩).role = "model") :=
  normalizeThread_role threeRoleThread threeRoleTurns rfl
    ((threeRoleTurns.drop (threeRoleTurns.length - 10)).map normTurn) rfl 1
    (by rw [List.length_map]; decide)

/-- C4 counterexample: a turn whose text field is null.  The expression
String(t?.text ?? "") coalesces null away before stringifying, so the output
text is "", not the string conversion "null" of the value null that the
claim promises for non-string text values. -/
theorem normalizeThread_null_text_cex :
    normalizeThread (JsVal.obj [("turns", JsVal.arr [JsVal.obj [("text", JsVal.null)]])]) =
        .ok [{ role := "model", parts := [⟨""⟩] }] ∧
      jsToString JsVal.null = "null" ∧ ("" : String) ≠ "null" :=
  ⟨by rfl, by rfl, by decide⟩

/-- C4 amended: thread normalization never throws when the turn list is an
array, whatever the turns hold; a turn text that is non-nullish (number,
boolean, object, array, string) is stringified by String(), while an absent
or null text yields the empty string (not the conversion "null"). -/
theorem normalizeThread_text_stringified (thread : JsVal) (ts : List JsVal)
    (h : coalesce (getProp thread "turns") (JsVal.arr []) = JsVal.arr ts)
    (out : List GemTurn) (hout : normalizeThread thread = .ok out)
    (i : Nat) (hi : i < out.length) :
    ∃ ht : i < (ts.drop (ts.length - 10)).length,
      (out.get ⟨i, hi⟩).parts =
        [⟨if nullish (getProp ((ts.drop (ts.length - 10)).get ⟨i, ht⟩) "text")
           then ""
           else jsToString (getProp ((ts.drop (ts.length - 10)).get ⟨i, ht⟩) "text")⟩] := by
  have hdef : normalizeThread thread = .ok ((ts.drop (ts.length - 10)).map normTurn) := by
    unfold normalizeThread
    rw [h]
    rfl
  rw [hdef] at hout
  have hout2 : out = (ts.drop (ts.length - 10)).map normTurn := (Except.ok.inj hout).symm
  subst hout2
  have ht : i < (ts.drop (ts.length - 10)).length := by
    simpa using hi
  refine ⟨ht, ?_⟩
  rw [List.get_map]
  exact normTurn_parts_eq _

/-- A single turn whose text is the number 7. -/
def numTextTurns : List JsVal := [JsVal.obj [("text", JsVal.num 7)]]

/-- A thread object holding that turn. -/
def numTextThread : JsVal := JsVal.obj [("turns", JsVal.arr numTextTurns)]

/-- C4 witness: a numeric text is stringified to "7" and normalization does
not throw. -/
theorem normalizeThread_text_stringified_witness :
    ∃ ht : 0 < (numTextTurns.drop (numTextTurns.length - 10)).length,
      (((numTextTurns.drop (numTextTurns.length - 10)).map normTurn).get
          ⟨0, by rw [List.length_map]; exact ht⟩).parts =
        [⟨if nullish (getProp ((numTextTurns.drop (numTextTurns.length - 10)).get ⟨0, ht⟩) "text")
           then ""
           else jsToString (getProp ((numTextTurns.drop (numTextTurns.length - 10)).get ⟨0, ht⟩)
             "text")⟩] :=
  normalizeThread_text_stringified numTextThread numTextTurns rfl
    ((numTextTurns.drop (numTextTurns.length - 10)).map normTurn) rfl 0
    (by rw [List.length_map]; decide)

/-- C6: whenever the four ContextPack fields are each absent, null, or the
empty string, the assembled system instruction is exactly the fixed
template, trimmed, with both literal headers and all four sections blank —
missing fields render as empty sections of the constant template shape,
never as omitted sections. -/
theorem buildSystemBlock_empty (cp : JsVal)
    (h1 : nullish (getProp cp "coachPersona") = true ∨ getProp cp "coachPersona" = JsVal.str "")
    (h2 : nullish (getProp cp "playerProfile") = true ∨ getProp cp "playerProfile" = JsVal.str "")
    (h3 : nullish (getProp cp "recentMatchesSummary") = true ∨
      getProp cp "recentMatchesSummary" = JsVal.str "")
    (h4 : nullish (getProp cp "constraints") = true ∨ getProp cp "constraints" = JsVal.str "") :
    buildSystemBlock cp = jsTrim (sysTemplate "" "" "" "") ∧
      buildSystemBlock cp = "Recent matches:\n\n\nConstraints:" := by
  have e : buildSystemBlock cp = jsTrim (sysTemplate "" "" "" "") := by
    unfold buildSystemBlock
    rw [packField_empty cp "coachPersona" h1, packField_empty cp "playerProfile" h2,
      packField_empty cp "recentMatchesSummary" h3, packField_empty cp "constraints" h4]
  exact ⟨e, e.trans (by decide)⟩

/-- C6 witness: the empty ContextPack object assembles to the blank-sections
template. -/
theorem buildSystemBlock_empty_witness :
    buildSystemBlock (JsVal.obj []) = jsTrim (sysTemplate "" "" "" "") ∧
      buildSystemBlock (JsVal.obj []) = "Recent matches:\n\n\nConstraints:" :=
  buildSystemBlock_empty (JsVal.obj []) (Or.inl rfl) (Or.inl rfl) (Or.inl rfl) (Or.inl rfl)

/-- C1: for every parsed upstream envelope whose descent
candidates[0].content.parts (?? []) produces a parts list ps — any missing
link in the chain yielding the empty list — extractReply returns the trim of
the concatenation, in array order with no separator, of the text field of
each part (a missing text contributing the empty string), except that an
empty trimmed concatenation is replaced by the fixed fallback literal; the
result is never the empty string. -/
theorem extractReply_correct (json : JsVal) (ps : List JsVal)
    (h : coalesce (partsChain json) (JsVal.arr []) = JsVal.arr ps) :
    ∃ r, extractReply json = .ok r ∧
      r = (if jsTrim (concatPartTexts ps) = "" then fallbackReply
           else jsTrim (concatPartTexts ps)) ∧
      r ≠ "" := by
  have hdef : extractReply json =
      .ok (if jsJoinEmpty (List.map (fun p => coalesce (getProp p "text") (JsVal.str "")) ps) ≠ ""
             ∧ 0 < (jsTrim (jsJoinEmpty
                 (List.map (fun p => coalesce (getProp p "text") (JsVal.str "")) ps))).length
           then jsTrim (jsJoinEmpty
             (List.map (fun p => coalesce (getProp p "text") (JsVal.str "")) ps))
           else fallbackReply) := by
    unfold extractReply
    rw [h]
  rw [join_map_eq_concat ps] at hdef
  by_cases hE : jsTrim (concatPartTexts ps) = ""
  · refine ⟨fallbackReply, ?_, (if_pos hE).symm, by decide⟩
    rw [hdef]
    have hno : ¬ (concatPartTexts ps ≠ "" ∧ 0 < (jsTrim (concatPartTexts ps)).length) := by
      rw [hE]
      simp
    rw [if_neg hno]
  · have hlen : 0 < (jsTrim (concatPartTexts ps)).length := length_pos_of_ne_empty _ hE
    have hne : concatPartTexts ps ≠ "" := by
      intro h0
      apply hE
      rw [h0]
      rfl
    refine ⟨jsTrim (concatPartTexts ps), ?_, (if_neg hE).symm, hE⟩
    rw [hdef, if_pos ⟨hne, hlen⟩]

/-- C1 witness: an envelope with no candidates produces the fallback, which
is not empty. -/
theorem extractReply_correct_witness :
    ∃ r, extractReply (JsVal.obj []) = .ok r ∧
      r = (if jsTrim (concatPartTexts ([] : List JsVal)) = "" then fallbackReply
           else jsTrim (concatPartTexts ([] : List JsVal))) ∧
      r ≠ "" :=
  extractReply_correct (JsVal.obj []) [] rfl

/-- An envelope whose single part text carries a leading space. -/
def cexEnvelope : JsVal :=
  JsVal.obj [("candidates", JsVal.arr [JsVal.obj [("content",
    JsVal.obj [("parts", JsVal.arr [JsVal.obj [("text", JsVal.str " x")]])])]])]

/-- C9 counterexample: on the envelope whose concatenated parts text is
" x", extractReply of the later revision trims and returns "x" while the
inline expression of the earlier revision returns " x" untrimmed, so the two
revisions do not compute equal replies on every envelope. -/
theorem extractReply_ne_legacy_cex :
    extractReply cexEnvelope = .ok "x" ∧
      legacyExtract cexEnvelope = .ok " x" ∧
      extractReply cexEnvelope ≠ legacyExtract cexEnvelope := by
  have h1 : extractReply cexEnvelope = .ok "x" := by rfl
  have h2 : legacyExtract cexEnvelope = .ok " x" := by rfl
  refine ⟨h1, h2, ?_⟩
  rw [h1, h2]
  intro hEq
  exact absurd (Except.ok.inj hEq) (by decide)

/-- C9 amended: the two revisions agree exactly on the envelopes whose
concatenated parts text is nonempty and already trimmed (no leading or
trailing whitespace); there the later extractReply equals the earlier
inline expression and both return the concatenation.  (In general the later
revision returns the trim of the nonempty result of the earlier one, and
the fallback literals of the two revisions differ byte-wise.) -/
theorem extractReply_refines_legacy (json : JsVal) (ps : List JsVal)
    (h : partsChain json = JsVal.arr ps)
    (hne : concatPartTexts ps ≠ "")
    (ht : jsTrim (concatPartTexts ps) = concatPartTexts ps) :
    extractReply json = legacyExtract json ∧
      extractReply json = .ok (concatPartTexts ps) := by
  have hco : coalesce (partsChain json) (JsVal.arr []) = JsVal.arr ps := by
    rw [h]
    rfl
  have hdef : extractReply json =
      .ok (if jsJoinEmpty (List.map (fun p => coalesce (getProp p "text") (JsVal.str "")) ps) ≠ ""
             ∧ 0 < (jsTrim (jsJoinEmpty
                 (List.map (fun p => coalesce (getProp p "text") (JsVal.str "")) ps))).length
           then jsTrim (jsJoinEmpty
             (List.map (fun p => coalesce (getProp p "text") (JsVal.str "")) ps))
           else fallbackReply) := by
    unfold extractReply
    rw [hco]
  have hleg : legacyExtract json =
      .ok (if jsJoinEmpty (List.map (fun p => coalesce (getProp p "text") (JsVal.str "")) ps) ≠ ""
           then jsJoinEmpty (List.map (fun p => coalesce (getProp p "text") (JsVal.str "")) ps)
           else legacyFallbackReply) := by
    unfold legacyExtract
    rw [h]
  rw [join_map_eq_concat ps] at hdef
  rw [join_map_eq_concat ps] at hleg
  have hlen : 0 < (jsTrim (concatPartTexts ps)).length := by
    rw [ht]
    exact length_pos_of_ne_empty _ hne
  have he : extractReply json = .ok (concatPartTexts ps) := by
    rw [hdef, if_pos ⟨hne, hlen⟩, ht]
  refine ⟨?_, he⟩
  rw [he, hleg, if_pos hne]

/-- An envelope whose single part text is the already-trimmed "x". -/
def agreeEnvelope : JsVal :=
  JsVal.obj [("candidates", JsVal.arr [JsVal.obj [("content",
    JsVal.obj [("parts", JsVal.arr [JsVal.obj [("text", JsVal.str "x")]])])]])]

/-- C9 witness: on the trimmed nonempty envelope both revisions return
exactly the concatenated text "x". -/
theorem extractReply_refines_legacy_witness :
    extractReply agreeEnvelope = legacyExtract agreeEnvelope ∧
      extractReply agreeEnvelope =
        .ok (concatPartTexts [JsVal.obj [("text", JsVal.str "x")]]) :=
  extractReply_refines_legacy agreeEnvelope [JsVal.obj [("text", JsVal.str "x")]]
    rfl (by decide) (by decide)

/-- C5: the preconditions of the handler are checked in a fixed order with the
first failure winning: a falsy API key yields the 500 missing-key response
with zero upstream calls; with the key present, an invalid userMessage
yields its 400 with zero upstream calls; with both fine, an invalid
contextPack yields its 400 with zero upstream calls; and only when all
three pass (and thread normalization does not throw) is exactly one
upstream call made. -/
theorem coachChat_check_order (apiKey : Option String) (reqBody : JsVal)
    (ups : List UpstreamResp) :
    (envTruthy apiKey = false →
      coachChat apiKey reqBody ups = (.missingApiKey, 0) ∧
        responseOf .missingApiKey = (500, "Missing GEMINI_API_KEY")) ∧
    (envTruthy apiKey = true → validUserMessage reqBody = false →
      coachChat apiKey reqBody ups = (.invalidUserMessage, 0) ∧
        responseOf .invalidUserMessage = (400, "Missing or invalid userMessage")) ∧
    (envTruthy apiKey = true → validUserMessage reqBody = true →
      validContextPack reqBody = false →
      coachChat apiKey reqBody ups = (.invalidContextPack, 0) ∧
        responseOf .invalidContextPack = (400, "Missing or invalid contextPack")) ∧
    (envTruthy apiKey = true → validUserMessage reqBody = true →
      validContextPack reqBody = true →
      (normalizeThread (bodyProp reqBody "thread")).isOk = true →
      (coachChat apiKey reqBody ups).2 = 1) := by
  refine ⟨?_, ?_, ?_, ?_⟩
  · intro hk
    refine ⟨?_, rfl⟩
    unfold coachChat
    rw [if_pos hk]
  · intro hk hu
    refine ⟨?_, rfl⟩
    unfold coachChat
    rw [if_neg (by simp [hk]), if_pos hu]
  · intro hk hu hc
    refine ⟨?_, rfl⟩
    unfold coachChat
    rw [if_neg (by simp [hk]), if_neg (by simp [hu]), if_pos hc]
  · intro hk hu hc hn
    unfold coachChat
    rw [if_neg (by simp [hk]), if_neg (by simp [hu]), if_neg (by simp [hc])]
    cases hnt : normalizeThread (bodyProp reqBody "thread") with
    | error e =>
      rw [hnt] at hn
      exact absurd hn (by simp [Except.isOk, Except.toBool])
    | ok t =>
      exact upstreamStep_snd ups

/-- C5 witness: with the credential unset the handler answers with the 500
missing-key response and performs no upstream call. -/
theorem coachChat_check_order_witness :
    coachChat none (JsVal.obj []) [] = (.missingApiKey, 0) ∧
      responseOf .missingApiKey = (500, "Missing GEMINI_API_KEY") :=
  (coachChat_check_order none (JsVal.obj []) []).1 rfl

/-- C7: when the first upstream response is not ok, the handler answers with
the 502 bad-gateway outcome carrying the upstream status code and the raw
upstream body text verbatim, and performs exactly one upstream call — no
retry — whatever responses would follow. -/
theorem coachChat_upstream_failure (apiKey : Option String) (reqBody : JsVal)
    (r : UpstreamResp) (rest : List UpstreamResp)
    (hk : envTruthy apiKey = true) (hu : validUserMessage reqBody = true)
    (hc : validContextPack reqBody = true)
    (hn : (normalizeThread (bodyProp reqBody "thread")).isOk = true)
    (hr : r.ok = false) :
    coachChat apiKey reqBody (r :: rest) = (.badGateway r.status r.bodyText, 1) ∧
      responseOf (.badGateway r.status r.bodyText) = (502, "Gemini call failed") := by
  refine ⟨?_, rfl⟩
  unfold coachChat
  rw [if_neg (by simp [hk]), if_neg (by simp [hu]), if_neg (by simp [hc])]
  cases hnt : normalizeThread (bodyProp reqBody "thread") with
  | error e =>
    rw [hnt] at hn
    exact absurd hn (by simp [Except.isOk, Except.toBool])
  | ok t =>
    exact upstreamStep_fail r rest hr

/-- A valid request body: a nonempty string userMessage and an object
contextPack, no thread. -/
def validBody : JsVal :=
  JsVal.obj [("userMessage", JsVal.str "hi"), ("contextPack", JsVal.obj [])]

/-- C7 witness: an upstream 503 with body "rate limited" becomes the 502
bad-gateway outcome carrying 503 and "rate limited", after one call. -/
theorem coachChat_upstream_failure_witness :
    coachChat (some "key") validBody [⟨false, 503, "rate limited", none⟩] =
        (.badGateway 503 "rate limited", 1) ∧
      responseOf (.badGateway 503 "rate limited") = (502, "Gemini call failed") :=
  coachChat_upstream_failure (some "key") validBody ⟨false, 503, "rate limited", none⟩ []
    (by decide) (by decide) (by decide) (by rfl) rfl

/-- C8: a userMessage that is present and a string but empty is falsy, so
validation fails with the 400 missing-or-invalid-userMessage response —
userMessage must be a non-empty string. -/
theorem coachChat_empty_userMessage (apiKey : Option String) (reqBody : JsVal)
    (ups : List UpstreamResp) (hk : envTruthy apiKey = true)
    (h : bodyProp reqBody "userMessage" = JsVal.str "") :
    coachChat apiKey reqBody ups = (.invalidUserMessage, 0) ∧
      responseOf .invalidUserMessage = (400, "Missing or invalid userMessage") := by
  refine ⟨?_, rfl⟩
  have hv : validUserMessage reqBody = false := by
    unfold validUserMessage
    rw [h]
    rfl
  unfold coachChat
  rw [if_neg (by simp [hk]), if_pos hv]

/-- C8 witness: the body whose userMessage is the empty string is rejected
with the 400 userMessage response. -/
theorem coachChat_empty_userMessage_witness :
    coachChat (some "key") (JsVal.obj [("userMessage", JsVal.str "")]) [] =
        (.invalidUserMessage, 0) ∧
      responseOf .invalidUserMessage = (400, "Missing or invalid userMessage") :=
  coachChat_empty_userMessage (some "key") (JsVal.obj [("userMessage", JsVal.str "")]) []
    (by decide) rfl

/-- C10: for an otherwise valid request whose thread.turns is present,
non-null and not an array, the handler does not answer with either 400
client-input error: normalizeThread throws, the top-level catch fires, and
the response is the 500 unexpected-error outcome, before any upstream
call. -/
theorem coachChat_nonarray_turns (apiKey : Option String) (reqBody : JsVal)
    (ups : List UpstreamResp) (hk : envTruthy apiKey = true)
    (hu : validUserMessage reqBody = true) (hc : validContextPack reqBody = true)
    (hnn : nullish (getProp (bodyProp reqBody "thread") "turns") = false)
    (hna : ∀ xs, getProp (bodyProp reqBody "thread") "turns" ≠ JsVal.arr xs) :
    coachChat apiKey reqBody ups = (.unexpectedError, 0) ∧
      responseOf .unexpectedError = (500, "Unexpected error") ∧
      (coachChat apiKey reqBody ups).1 ≠ .invalidUserMessage ∧
      (coachChat apiKey reqBody ups).1 ≠ .invalidContextPack := by
  have hthrow : ∃ e, normalizeThread (bodyProp reqBody "thread") = .error e := by
    unfold normalizeThread coalesce
    rw [hnn]
    cases hv : getProp (bodyProp reqBody "thread") "turns" with
    | undefined => rw [hv] at hnn; exact absurd hnn (by simp [nullish])
    | null => rw [hv] at hnn; exact absurd hnn (by simp [nullish])
    | arr xs => exact absurd hv (hna xs)
    | boolean b => exact ⟨_, rfl⟩
    | num n => exact ⟨_, rfl⟩
    | str t => exact ⟨_, rfl⟩
    | obj fields => exact ⟨_, rfl⟩
  obtain ⟨e, he⟩ := hthrow
  have hmain : coachChat apiKey reqBody ups = (.unexpectedError, 0) := by
    unfold coachChat
    rw [if_neg (by simp [hk]), if_neg (by simp [hu]), if_neg (by simp [hc]), he]
  refine ⟨hmain, rfl, ?_, ?_⟩
  · rw [hmain]
    decide
  · rw [hmain]
    decide

/-- A valid request body whose thread.turns is the number 5. -/
def numericTurnsBody : JsVal :=
  JsVal.obj [("userMessage", JsVal.str "hi"), ("contextPack", JsVal.obj []),
    ("thread", JsVal.obj [("turns", JsVal.num 5)])]

/-- C10 witness: thread.turns = 5 yields the 500 unexpected-error outcome
without an upstream call and is not a 400. -/
theorem coachChat_nonarray_turns_witness :
    coachChat (some "key") numericTurnsBody [] = (.unexpectedError, 0) ∧
      responseOf .unexpectedError = (500, "Unexpected error") ∧
      (coachChat (some "key") numericTurnsBody []).1 ≠ .invalidUserMessage ∧
      (coachChat (some "key") numericTurnsBody []).1 ≠ .invalidContextPack :=
  coachChat_nonarray_turns (some "key") numericTurnsBody []
    (by decide) (by decide) (by decide) rfl
    (fun xs h => JsVal.noConfusion h)

end WePadel
